import Mathlib

/-!
# Agricultural Monitoring System — verification of the transformation and
# validation pipeline

Shallow embedding of the sensor-data pipeline
(`src/components/data_transfomation.py`, `src/components/data_validation.py`,
`src/pipeline/data_validation_pipeline.py`) as Lean definitions over lists of
records, together with theorems settling the specification claims.

Conventions of the embedding:
* a pandas `DataFrame` of sensor readings is a `List` of row structures;
* nullable columns are `Option` fields (pandas `NaN`/`NaT` is `none`);
* float64 arithmetic is modelled exactly over `ℚ` (and over `ℝ` where a
  square root is involved, namely the standard-deviation scaling);
* timestamps are minutes since an epoch (`ℕ`), so that the SQL
  `DATE_TRUNC('hour', ts)` is `60 * (ts / 60)` and `ts::DATE` is `ts / 1440`.
-/

namespace AgMon

/-! ## Cleaner — `DataTransformation.drop_duplicates_and_missing`

The raw input schema (§6 of the spec): all five columns may be null before
cleaning. -/

/-- A raw sensor reading as seen by the Cleaner: every column nullable. -/
structure CRow where
  sensor_id : Option String
  timestamp : Option ℕ
  reading_type : Option String
  value : Option ℚ
  battery_level : Option ℚ
deriving DecidableEq, Repr

/-- Worker for `dropDupFirst`: `seen` holds the values already emitted. -/
def dropDupFirstAux {α : Type} [DecidableEq α] (seen : List α) : List α → List α
  | [] => []
  | a :: l => if a ∈ seen then dropDupFirstAux seen l else a :: dropDupFirstAux (a :: seen) l

/-- `DataFrame.drop_duplicates()` with the default `keep="first"`: keep the
first occurrence of each row, comparing across all columns. -/
def dropDupFirst {α : Type} [DecidableEq α] (l : List α) : List α :=
  dropDupFirstAux [] l

/-- The `dropna(subset=[...])` condition: none of the five required columns
is null. -/
def isComplete (r : CRow) : Bool :=
  r.sensor_id.isSome && r.timestamp.isSome && r.reading_type.isSome &&
    r.value.isSome && r.battery_level.isSome

/-- `DataTransformation.drop_duplicates_and_missing`: drop exact duplicate
rows (keep first), then drop rows with a null in any of
{sensor_id, timestamp, reading_type, value, battery_level}. -/
def drop_duplicates_and_missing (df : List CRow) : List CRow :=
  (dropDupFirst df).filter isComplete

theorem mem_dropDupFirstAux {α : Type} [DecidableEq α] {a : α} :
    ∀ {seen l : List α}, a ∈ dropDupFirstAux seen l ↔ a ∈ l ∧ a ∉ seen := by
  intro seen l
  induction l generalizing seen with
  | nil => simp [dropDupFirstAux]
  | cons b l ih =>
    rw [dropDupFirstAux]
    by_cases hb : b ∈ seen
    · rw [if_pos hb, ih]
      simp only [List.mem_cons]
      by_cases hab : a = b
      · subst hab; simp [hb]
      · simp [hab]
    · rw [if_neg hb]
      simp only [List.mem_cons, ih]
      by_cases hab : a = b
      · subst hab; simp [hb]
      · simp [hab]

theorem mem_dropDupFirst {α : Type} [DecidableEq α] {a : α} {l : List α} :
    a ∈ dropDupFirst l ↔ a ∈ l := by
  rw [dropDupFirst, mem_dropDupFirstAux]
  simp

theorem nodup_dropDupFirstAux {α : Type} [DecidableEq α] :
    ∀ (seen l : List α), (dropDupFirstAux seen l).Nodup := by
  intro seen l
  induction l generalizing seen with
  | nil => exact List.nodup_nil
  | cons b l ih =>
    rw [dropDupFirstAux]
    by_cases hb : b ∈ seen
    · rw [if_pos hb]; exact ih seen
    · rw [if_neg hb]
      refine List.nodup_cons.2 ⟨?_, ih (b :: seen)⟩
      intro hmem
      exact (mem_dropDupFirstAux.1 hmem).2 (List.mem_cons_self _ _)

theorem nodup_dropDupFirst {α : Type} [DecidableEq α] (l : List α) :
    (dropDupFirst l).Nodup :=
  nodup_dropDupFirstAux [] l

theorem dropDupFirstAux_eq_self {α : Type} [DecidableEq α] :
    ∀ {seen l : List α}, l.Nodup → (∀ x ∈ l, x ∉ seen) →
      dropDupFirstAux seen l = l := by
  intro seen l
  induction l generalizing seen with
  | nil => intro _ _; rfl
  | cons b l ih =>
    intro hnd hdis
    rw [dropDupFirstAux, if_neg (hdis b (List.mem_cons_self _ _))]
    congr 1
    refine ih (List.nodup_cons.1 hnd).2 ?_
    intro x hx hmem
    rcases List.mem_cons.1 hmem with h | h
    · exact (List.nodup_cons.1 hnd).1 (h ▸ hx)
    · exact hdis x (List.mem_cons_of_mem _ hx) h

theorem dropDupFirst_eq_self {α : Type} [DecidableEq α] {l : List α}
    (h : l.Nodup) : dropDupFirst l = l :=
  dropDupFirstAux_eq_self h (by simp)

/-- C9: the Cleaner (exact-duplicate removal keeping first occurrences,
then dropping rows with a null in any of {sensor_id, timestamp,
reading_type, value, battery_level}) is idempotent:
`clean (clean d) = clean d` for every dataset `d`. -/
theorem c9_cleaner_idempotent (d : List CRow) :
    drop_duplicates_and_missing (drop_duplicates_and_missing d) =
      drop_duplicates_and_missing d := by
  unfold drop_duplicates_and_missing
  have h1 : (dropDupFirst d).Nodup := nodup_dropDupFirst d
  have h2 : ((dropDupFirst d).filter isComplete).Nodup := h1.filter _
  rw [dropDupFirst_eq_self h2, List.filter_filter]
  simp

/-! ## Outlier Filter — `DataTransformation.remove_outliers_zscore`

After cleaning, the five required columns are non-null; rows at this stage
therefore have concrete (non-`Option`) fields. -/

/-- A cleaned sensor reading (post-Cleaner invariant: no nulls). -/
structure TRow where
  sensor_id : String
  timestamp : ℕ
  reading_type : String
  value : ℚ
  battery_level : ℚ
deriving DecidableEq, Repr

/-- Arithmetic mean of a list (`Series.mean()`); division by zero yields `0`
for the empty list, which the callers never rely on. -/
def listMean (xs : List ℚ) : ℚ := xs.sum / xs.length

/-- Sample variance (`Series.std() ** 2`, pandas default `ddof=1`):
undefined (`none`, pandas `NaN`) for fewer than 2 entries. The code's test
`std == 0 or isna(std)` and its bound `|z| <= z_thresh` are phrased below on
the variance, which is the square of the standard deviation, so that the
embedding stays in exact `ℚ` arithmetic. -/
def sampleVar (xs : List ℚ) : Option ℚ :=
  if xs.length < 2 then none
  else some ((xs.map (fun x => (x - listMean xs) ^ 2)).sum / (xs.length - 1 : ℕ))

/-- The retention test `|z| <= z_thresh` with `z = (x - mean) / std`,
squared to avoid the irrational square root: for `v = std ^ 2 > 0` and
`z_thresh >= 0` it is equivalent to `(x - mean) ^ 2 <= z_thresh ^ 2 * v`. -/
def zSqOK (mean v z_thresh x : ℚ) : Bool :=
  decide ((x - mean) ^ 2 ≤ z_thresh ^ 2 * v)

/-- `DataTransformation.remove_outliers_zscore`: if the sample standard
deviation of the `value` column is `NaN` or `0`, return the dataset
unchanged; otherwise keep exactly the rows whose z-score has absolute value
at most `z_thresh`. -/
def remove_outliers_zscore (df : List TRow) (z_thresh : ℚ := 3) : List TRow :=
  match sampleVar (df.map (fun r => r.value)) with
  | none => df
  | some v =>
    if v = 0 then df
    else df.filter (fun r => zSqOK (listMean (df.map (fun r => r.value))) v z_thresh r.value)

/-- C3: if the sample standard deviation of `value` is undefined (fewer than
two rows / empty) or zero, the Outlier Filter returns the dataset unchanged;
otherwise (variance `v ≠ 0`) every output row satisfies
`(value - mean)^2 ≤ z_thresh^2 * v` — i.e. `|z| ≤ z_thresh` — and every
input row satisfying that bound is retained. -/
theorem c3_outlier_filter (df : List TRow) (z_thresh : ℚ) :
    ((sampleVar (df.map (fun r => r.value)) = none ∨
        sampleVar (df.map (fun r => r.value)) = some 0) →
      remove_outliers_zscore df z_thresh = df) ∧
    (∀ v, sampleVar (df.map (fun r => r.value)) = some v → v ≠ 0 →
      (∀ r ∈ remove_outliers_zscore df z_thresh,
        (r.value - listMean (df.map (fun r => r.value))) ^ 2 ≤ z_thresh ^ 2 * v) ∧
      (∀ r ∈ df,
        (r.value - listMean (df.map (fun r => r.value))) ^ 2 ≤ z_thresh ^ 2 * v →
          r ∈ remove_outliers_zscore df z_thresh)) := by
  constructor
  · rintro (h | h) <;> rw [remove_outliers_zscore, h]
    simp
  · intro v hv hv0
    rw [remove_outliers_zscore, hv]
    simp only [if_neg hv0]
    constructor
    · intro r hr
      have := List.mem_filter.1 hr
      simpa [zSqOK] using this.2
    · intro r hr hbound
      exact List.mem_filter.2 ⟨hr, by simpa [zSqOK] using hbound⟩

/-- The concrete dataset used to witness `c3_outlier_filter`: three rows
with values 0, 0 and 12, whose sample mean is 4 and sample variance 48. -/
def c3ex : List TRow :=
  [⟨"S1", 0, "temperature", 0, 50⟩,
   ⟨"S1", 1, "temperature", 0, 50⟩,
   ⟨"S1", 2, "temperature", 12, 50⟩]

theorem c3ex_var : sampleVar (c3ex.map (fun r => r.value)) = some 48 := by
  simp only [c3ex, sampleVar, listMean, List.map_cons, List.map_nil,
    List.length_cons, List.length_nil, List.sum_cons, List.sum_nil]
  norm_num

/-- Witness for `c3_outlier_filter` at the concrete dataset `c3ex`: its
sample variance is 48 ≠ 0, and every retained row satisfies the z-score
bound. -/
theorem c3_outlier_filter_witness :
    (sampleVar (c3ex.map (fun r => r.value)) = some 48 ∧ (48 : ℚ) ≠ 0) ∧
    ∀ r ∈ remove_outliers_zscore c3ex 3,
      (r.value - listMean (c3ex.map (fun r => r.value))) ^ 2 ≤ (3 : ℚ) ^ 2 * 48 :=
  ⟨⟨c3ex_var, by norm_num⟩,
    ((c3_outlier_filter c3ex 3).2 48 c3ex_var (by norm_num)).1⟩

/-! ## Calibrator — `DataTransformation.apply_calibration`

`calibration_params` is a Python dict from reading_type to
`{"multiplier": m, "offset": o}`, modelled as an association list; the
code's `dict.get(key, {"multiplier": 1.0, "offset": 0.0})` is a lookup with
identity default. -/

/-- A row after calibration: the input columns plus `calibrated_value`. -/
structure CalRow extends TRow where
  calibrated_value : ℚ
deriving DecidableEq, Repr

/-- `calibration_params.get(reading_type, {"multiplier": 1.0, "offset": 0.0})`:
look up the (multiplier, offset) pair, defaulting to the identity
correction. -/
def lookupCalib (params : List (String × ℚ × ℚ)) (t : String) : ℚ × ℚ :=
  match params.find? (fun e => e.1 == t) with
  | some e => e.2
  | none => (1, 0)

/-- `DataTransformation.apply_calibration`: add
`calibrated_value = value * multiplier + offset` to every row (row-wise
`df.apply(_calibrate, axis=1)`). -/
def apply_calibration (params : List (String × ℚ × ℚ)) (df : List TRow) : List CalRow :=
  df.map (fun r =>
    { r with calibrated_value :=
        r.value * (lookupCalib params r.reading_type).1 +
          (lookupCalib params r.reading_type).2 })

/-- The default calibration table built in
`DataTransformation.__init__` when `calibration_params is None`. -/
def defaultCalibrationParams : List (String × ℚ × ℚ) :=
  [("temperature", 1.02, -0.3),
   ("humidity", 0.99, 0.5),
   ("soil_moisture", 1, 0),
   ("light", 1, 0)]

/-- C4: the Calibrator is total and row-wise: every output row carries
`calibrated_value = value * multiplier + offset` with `(multiplier, offset)`
looked up by `reading_type` (the remaining columns are untouched and the
row count is preserved); the lookup defaults to the identity `(1, 0)` for a
reading type absent from the parameters; and with the calibration
parameters mapping "temperature" to multiplier 1.02 and offset -0.3, a
"temperature" row with value 20 gets calibrated_value 20.1. -/
theorem c4_calibrator :
    (∀ (params : List (String × ℚ × ℚ)) (df : List TRow) (i : ℕ),
      (apply_calibration params df)[i]? = (df[i]?).map (fun r =>
        { r with calibrated_value :=
            r.value * (lookupCalib params r.reading_type).1 +
              (lookupCalib params r.reading_type).2 })) ∧
    (∀ (params : List (String × ℚ × ℚ)) (t : String),
      (∀ e ∈ params, e.1 ≠ t) → lookupCalib params t = (1, 0)) ∧
    ((apply_calibration [("temperature", 1.02, -0.3)]
        [⟨"S1", 0, "temperature", 20, 50⟩]).map (fun r => r.calibrated_value) =
      [(20.1 : ℚ)]) := by
  refine ⟨?_, ?_, ?_⟩
  · intro params df i
    simp [apply_calibration]
  · intro params t h
    rw [lookupCalib, List.find?_eq_none.2 ?_]
    intro e he
    simpa using h e he
  · simp only [apply_calibration, lookupCalib, List.map_cons, List.map_nil,
      List.find?, beq_self_eq_true]
    norm_num

/-- Witness for `c4_calibrator`: its second component applied to the
one-entry table `[("humidity", 0.99, 0.5)]` and the absent reading type
"temperature" yields the identity correction. -/
theorem c4_calibrator_witness :
    (∀ e ∈ ([("humidity", (0.99 : ℚ), (0.5 : ℚ))] : List (String × ℚ × ℚ)),
      e.1 ≠ "temperature") ∧
    lookupCalib [("humidity", 0.99, 0.5)] "temperature" = (1, 0) :=
  ⟨by simp, c4_calibrator.2.1 [("humidity", 0.99, 0.5)] "temperature" (by simp)⟩

/-! ## Feature Deriver — `DataTransformation.add_derived`, rolling mean

`df.sort_values(["sensor_id", "reading_type", "timestamp"])` with several
sort keys uses numpy's `lexsort`, which is stable: ties among rows with
equal keys keep their original order. The embedding makes this exact by
sorting the index-tagged rows by the strict lexicographic order on
(sensor_id, reading_type, timestamp, original index), under which the
stable sort result is the unique sorted permutation. -/

/-- Python's `<` on strings: lexicographic comparison by Unicode code
point (written over `Char.toNat` lists so that it evaluates in the
kernel). -/
def strLt (s t : String) : Prop :=
  s.data.map Char.toNat < t.data.map Char.toNat

instance : DecidableRel strLt := fun s t => by
  unfold strLt
  infer_instance

/-- The sort order of `sort_values(["sensor_id", "reading_type",
"timestamp"])` on index-tagged rows, with the original position as the
final tie-breaker (stability). -/
def rowLe (a b : ℕ × CalRow) : Prop :=
  strLt a.2.sensor_id b.2.sensor_id ∨
    (a.2.sensor_id = b.2.sensor_id ∧
      (strLt a.2.reading_type b.2.reading_type ∨
        (a.2.reading_type = b.2.reading_type ∧
          (a.2.timestamp < b.2.timestamp ∨
            (a.2.timestamp = b.2.timestamp ∧ a.1 ≤ b.1)))))

instance : DecidableRel rowLe := fun a b => by
  unfold rowLe
  infer_instance

/-- `df.sort_values(["sensor_id", "reading_type", "timestamp"])`: the
stable sort of the dataframe rows by the three-key ascending order. -/
def sortValues (rows : List CalRow) : List CalRow :=
  (List.insertionSort rowLe rows.enum).map Prod.snd

/-- The `calibrated_value` column of one `groupby(["sensor_id",
"reading_type"])` group of the sorted dataframe, in dataframe (sorted)
order. -/
def groupCalValues (rows : List CalRow) (s t : String) : List ℚ :=
  ((sortValues rows).filter (fun r => r.sensor_id == s && r.reading_type == t)).map
    (fun r => r.calibrated_value)

/-- `Series.rolling(window=7, min_periods=1).mean()` on a group's values:
the i-th output is the mean of the last `min 7 (i+1)` values up to and
including position i. -/
def rollingMean7 (xs : List ℚ) : List ℚ :=
  (List.range xs.length).map (fun i =>
    let w := min 7 (i + 1)
    ((xs.take (i + 1)).drop (i + 1 - w)).sum / (w : ℚ))

/-- C1: the Feature Deriver's sort is a permutation of the input rows (no
row lost or duplicated by `sort_values`), and within any
(sensor_id, reading_type) group of fewer than 7 rows, `rolling_7` at every
position equals the cumulative mean of `calibrated_value` up to and
including that position, in sorted order (ties among equal timestamps
broken by original insertion order, which the sort key encodes). -/
theorem c1_rolling7_cumulative_mean (rows : List CalRow) (s t : String) :
    List.Perm (sortValues rows) rows ∧
    ∀ i : ℕ, i < (groupCalValues rows s t).length →
      (groupCalValues rows s t).length < 7 →
      (rollingMean7 (groupCalValues rows s t))[i]? =
        some (((groupCalValues rows s t).take (i + 1)).sum / (i + 1 : ℚ)) := by
  constructor
  · have h1 : List.Perm (List.insertionSort rowLe rows.enum) rows.enum :=
      List.perm_insertionSort rowLe rows.enum
    have h2 : List.Perm (sortValues rows) (rows.enum.map Prod.snd) := h1.map Prod.snd
    rwa [List.enum_map_snd] at h2
  · intro i hi hlen
    have hw : min 7 (i + 1) = i + 1 := min_eq_right (by omega)
    rw [rollingMean7, List.getElem?_map, List.getElem?_range hi, Option.map_some']
    congr 1
    simp only []
    rw [hw, Nat.sub_self, List.drop_zero]
    push_cast
    rfl

/-- The concrete dataset used to witness `c1_rolling7_cumulative_mean`:
two rows of one (sensor, reading_type) group, inserted in reverse
timestamp order; its group column after sorting is [3, 5]. -/
def c1ex : List CalRow :=
  [⟨⟨"S1", 60, "temperature", 5, 50⟩, 5⟩,
   ⟨⟨"S1", 0, "temperature", 3, 50⟩, 3⟩]

/-- Witness for `c1_rolling7_cumulative_mean` at `c1ex` and position 1:
the group has 2 < 7 rows and the rolling mean at its second row is the
cumulative mean of the first two calibrated values. -/
theorem c1_rolling7_cumulative_mean_witness :
    (1 < (groupCalValues c1ex "S1" "temperature").length ∧
      (groupCalValues c1ex "S1" "temperature").length < 7) ∧
    (rollingMean7 (groupCalValues c1ex "S1" "temperature"))[1]? =
      some (((groupCalValues c1ex "S1" "temperature").take (1 + 1)).sum /
        (((1 : ℕ) : ℚ) + 1)) :=
  ⟨⟨by decide, by decide⟩,
    (c1_rolling7_cumulative_mean c1ex "S1" "temperature").2 1 (by decide) (by decide)⟩

/-! ## Quality Auditor — `DataValidation.run_data_quality_checks`

The audited snapshot is registered in DuckDB from a pandas dataframe whose
columns are typed: `sensor_id` and `reading_type` VARCHAR, `timestamp` a
valid instant (minutes since the epoch here), `value` a nullable DOUBLE.
SQL three-valued logic on a NULL `value` makes every comparison in a CASE
fall through to `ELSE 0`, which the `Option` matches below reproduce. -/

/-- One row of the snapshot audited by the Quality Auditor. -/
structure ValRow where
  sensor_id : String
  timestamp : ℕ
  reading_type : String
  value : Option ℚ
deriving DecidableEq, Repr

/-- The range-check CASE of audit query 2: a row is counted iff its type is
"temperature" with value outside [-40, 85] or "humidity" with value outside
[0, 100]; any other type — and any NULL value — falls to `ELSE 0`. -/
def rangeCaseHit (r : ValRow) : Bool :=
  match r.value with
  | none => false
  | some v =>
    (r.reading_type == "temperature" && (decide (v < -40) || decide (v > 85))) ||
      (r.reading_type == "humidity" && (decide (v < 0) || decide (v > 100)))

/-- Audit query 2 (`GROUP BY reading_type`): one `(reading_type,
out_of_range)` row per distinct reading type of the snapshot. -/
def range_check (df : List ValRow) : List (String × ℕ) :=
  (dropDupFirst (df.map (fun r => r.reading_type))).map (fun t =>
    (t, (df.filter (fun r => r.reading_type == t)).countP rangeCaseHit))

/-- The 3-row scenario dataset of §8: temperature values 90, 20, 21. -/
def c5ex : List ValRow :=
  [⟨"S1", 0, "temperature", some 90⟩,
   ⟨"S1", 1, "temperature", some 20⟩,
   ⟨"S1", 2, "temperature", some 21⟩]

/-- C5: the Auditor's range check emits exactly one report row per distinct
reading_type of the dataset; only the temperature bounds [-40, 85] and the
humidity bounds [0, 100] are ever counted, so every reading type other than
"temperature" and "humidity" reports `out_of_range = 0`; and on the 3-row
scenario (temperature values 90, 20, 21) it reports
`[("temperature", 1)]`. -/
theorem c5_range_check (df : List ValRow) :
    (range_check df).map Prod.fst = dropDupFirst (df.map (fun r => r.reading_type)) ∧
    (∀ p ∈ range_check df, p.1 ≠ "temperature" → p.1 ≠ "humidity" → p.2 = 0) ∧
    range_check c5ex = [("temperature", 1)] := by
  refine ⟨?_, ?_, ?_⟩
  · rw [range_check, List.map_map]
    apply List.map_id''
    intro x
    rfl
  · intro p hp ht hh
    rw [range_check] at hp
    rcases List.mem_map.1 hp with ⟨t, -, rfl⟩
    simp only
    rw [List.countP_eq_zero]
    intro r hr
    have hrt : r.reading_type = t := by
      simpa using (List.mem_filter.1 hr).2
    simp only [rangeCaseHit]
    match hv : r.value with
    | none => simp
    | some v =>
      simp only [Bool.or_eq_true, Bool.and_eq_true, beq_iff_eq, hrt]
      push_neg
      exact ⟨fun h => absurd h ht, fun h => absurd h hh⟩
  · show range_check c5ex = [("temperature", 1)]
    norm_num [range_check, c5ex, dropDupFirst, dropDupFirstAux, rangeCaseHit,
      List.filter, List.countP, List.countP.go]

/-- A one-row snapshot whose only reading type is "soil_moisture", used to
witness the other-types-report-zero part of `c5_range_check`. -/
def c5ex2 : List ValRow := [⟨"S1", 0, "soil_moisture", some 20⟩]

/-- Witness for `c5_range_check`: on `c5ex2` the report contains the row
`("soil_moisture", 0)`, and the theorem's zero-count clause applies to it
since "soil_moisture" is neither "temperature" nor "humidity". -/
theorem c5_range_check_witness :
    (("soil_moisture", 0) ∈ range_check c5ex2 ∧
      ("soil_moisture" : String) ≠ "temperature" ∧
      ("soil_moisture" : String) ≠ "humidity") ∧
    (("soil_moisture", (0 : ℕ)) : String × ℕ).2 = 0 :=
  ⟨⟨by decide, by decide, by decide⟩,
    (c5_range_check c5ex2).2.1 ("soil_moisture", 0) (by decide) (by decide) (by decide)⟩

/-- Audit query 4: total row count, count of anomalous rows (`value` NULL
or outside [-1000, 1000]), and the anomaly percentage, defined as 0 when
the snapshot is empty. -/
def anomaly_pct (df : List ValRow) : ℚ :=
  let total := df.length
  let anomalies := df.countP (fun r =>
    match r.value with
    | none => true
    | some v => decide (v < -1000) || decide (v > 1000))
  if total > 0 then (anomalies : ℚ) / (total : ℚ) * 100 else 0

/-- C6: `anomaly_pct` is the fraction of rows whose value is NULL or
outside [-1000, 1000] as a percentage of the row count; it is 0 on the
empty dataset (no division by zero), and 100 on every nonempty dataset in
which all values are NULL. -/
theorem c6_anomaly_pct :
    anomaly_pct [] = 0 ∧
    (∀ df : List ValRow, df ≠ [] → (∀ r ∈ df, r.value = none) →
      anomaly_pct df = 100) := by
  constructor
  · rfl
  · intro df hne hall
    have hlen : 0 < df.length := List.length_pos.2 hne
    have hcnt : df.countP (fun r =>
        match r.value with
        | none => true
        | some v => decide (v < -1000) || decide (v > 1000)) = df.length := by
      rw [List.countP_eq_length]
      intro r hr
      rw [hall r hr]
    rw [anomaly_pct]
    simp only [hcnt, if_pos hlen]
    have : (df.length : ℚ) ≠ 0 := by
      exact_mod_cast Nat.pos_iff_ne_zero.1 hlen
    field_simp

/-- Witness for `c6_anomaly_pct` at a concrete one-row dataset whose only
value is NULL: the anomaly percentage is 100. -/
theorem c6_anomaly_pct_witness :
    (([⟨"S1", 0, "temperature", none⟩] : List ValRow) ≠ [] ∧
      ∀ r ∈ ([⟨"S1", 0, "temperature", none⟩] : List ValRow), r.value = none) ∧
    anomaly_pct [⟨"S1", 0, "temperature", none⟩] = 100 :=
  ⟨⟨by decide, by decide⟩,
    c6_anomaly_pct.2 [⟨"S1", 0, "temperature", none⟩] (by decide) (by decide)⟩

/-! ## Quality Auditor — coverage gaps (audit query 5)

The SQL first casts `MIN(timestamp)` and `MAX(timestamp)` to `DATE`
(`MIN(timestamp)::DATE AS start_date, MAX(timestamp)::DATE AS end_date`)
and only then generates `generate_series(start_date, end_date, INTERVAL 1
hour)`: the expected buckets run from *midnight of the first date* to
*midnight of the last date*, inclusive, in one-hour steps — not from the
min to the max timestamp truncated to the hour. With timestamps in
minutes, a date is `ts / 1440` and an hour bucket is `60 * (ts / 60)`. -/

/-- `ts::DATE`: the calendar date (day index) of a timestamp in minutes. -/
def dateOf (ts : ℕ) : ℕ := ts / 1440

/-- `DATE_TRUNC('hour', ts)` in minutes. -/
def hourTrunc (ts : ℕ) : ℕ := 60 * (ts / 60)

/-- The `expected` CTE: hourly instants from `MIN(timestamp)::DATE` to
`MAX(timestamp)::DATE` inclusive; empty when the snapshot is empty (SQL
`generate_series` over NULL bounds). -/
def expected_buckets (df : List ValRow) : List ℕ :=
  match (df.map (fun r => r.timestamp)).min?, (df.map (fun r => r.timestamp)).max? with
  | some t0, some t1 =>
    (List.range ((dateOf t1 - dateOf t0) * 24 + 1)).map (fun k =>
      dateOf t0 * 1440 + 60 * k)
  | _, _ => []

/-- Per-sensor missing-hours count: the expected buckets with no
observation of sensor `s` whose hour-truncated timestamp equals the
bucket (the `LEFT JOIN ... WHERE d.sensor_id IS NULL` count). -/
def missing_hours (df : List ValRow) (s : String) : ℕ :=
  (expected_buckets df).countP (fun b =>
    df.all (fun r => !(r.sensor_id == s && hourTrunc r.timestamp == b)))

/-- The coverage-gaps result set: one `(sensor_id, missing_hours)` row per
distinct sensor, present only when the count is positive (the SQL `GROUP
BY` only forms groups from surviving joined rows). -/
def coverage_gaps_rows (df : List ValRow) : List (String × ℕ) :=
  (dropDupFirst (df.map (fun r => r.sensor_id))).filterMap (fun s =>
    if missing_hours df s > 0 then some (s, missing_hours df s) else none)

/-- The aggregate report row: `total_gaps` is the sum of `missing_hours`
over the per-sensor result set. -/
def total_gaps (df : List ValRow) : ℕ :=
  ((coverage_gaps_rows df).map Prod.snd).sum

/-- The scenario dataset of §8: one sensor "S1" on a single day, readings
at every hour except 02:00–04:59 (all readings between 02:00 and 05:00
missing). -/
def c2ex : List ValRow :=
  (List.range 24).filterMap (fun h =>
    if h = 2 || h = 3 || h = 4 then none
    else some ⟨"S1", h * 60, "temperature", some 20⟩)

/-- Counterexample to C2: on the single-day scenario dataset (sensor "S1"
observed every hour except 02:00–05:00), the code's expected buckets are
just `[0]` — midnight of the single date, since the min and max timestamps
are cast to DATE before the hourly series is generated — so the sensor's
missing-hours count is 0, not the 3 the claim requires. -/
theorem c2_counterexample :
    expected_buckets c2ex = [0] ∧
    missing_hours c2ex "S1" = 0 ∧
    missing_hours c2ex "S1" ≠ 3 := by
  refine ⟨by decide, by decide, by decide⟩

theorem sum_filterMap_pos_counts (l : List String) (f : String → ℕ) :
    ((l.filterMap (fun s => if f s > 0 then some (s, f s) else none)).map
      Prod.snd).sum = (l.map f).sum := by
  induction l with
  | nil => rfl
  | cons a l ih =>
    by_cases h : f a > 0
    · rw [List.filterMap_cons, if_pos h]
      simpa using ih
    · rw [List.filterMap_cons, if_neg h]
      have ha : f a = 0 := by omega
      simp [ha, ih]

/-- C2 (amended): the expected hourly buckets run from midnight of the
dataset's minimum date to midnight of its maximum date inclusive (the min
and max timestamps are cast to DATE before the hourly series is
generated); per sensor, `missing_hours` counts the buckets with zero
observations of that sensor; sensors without gaps are omitted from the
per-sensor rows, yet `total_gaps` equals the sum of the missing-hours
counts over all distinct sensors; on the single-day scenario the sensor's
missing-hours count is 0 (its only bucket, midnight, is covered). -/
theorem c2_total_gaps_sum (df : List ValRow) :
    total_gaps df =
      ((dropDupFirst (df.map (fun r => r.sensor_id))).map (missing_hours df)).sum ∧
    missing_hours c2ex "S1" = 0 := by
  constructor
  · rw [total_gaps, coverage_gaps_rows]
    exact sum_filterMap_pos_counts _ _
  · decide

/-! ## Quality report assembly and the validation pipeline

`DataValidation.run_data_quality_checks` unions the five checks into one
report. In the typed embedding the registered `value` column is DOUBLE and
every `timestamp` is a valid instant, so the two invalid-count columns of
the type check are 0, and `sensor_id`/`timestamp` carry no NULLs (only
`value` is nullable). -/

/-- One heterogeneous row of the quality report (`check_type` is the
constructor). -/
inductive ReportRow where
  | typeCheck (total_records invalid_value_type invalid_timestamps : ℕ)
  | rangeCheck (reading_type : String) (out_of_range : ℕ)
  | missingCheck (missing_sensor_id missing_timestamp missing_value : ℕ)
  | anomalyPct (total anomalies : ℕ) (pct : ℚ)
  | coverageGaps (total_gaps : ℕ)
deriving DecidableEq, Repr

/-- `DataValidation.run_data_quality_checks`: the assembled report, in the
order the five checks append their rows. -/
def run_data_quality_checks (df : List ValRow) : List ReportRow :=
  [ReportRow.typeCheck df.length 0 0] ++
    (range_check df).map (fun p => ReportRow.rangeCheck p.1 p.2) ++
    [ReportRow.missingCheck 0 0 (df.countP (fun r => r.value.isNone))] ++
    [ReportRow.anomalyPct df.length
      (df.countP (fun r =>
        match r.value with
        | none => true
        | some v => decide (v < -1000) || decide (v > 1000)))
      (anomaly_pct df)] ++
    [ReportRow.coverageGaps (total_gaps df)]

/-- The attribute table of the `DataValidation` class: it defines exactly
`run_data_quality_checks` and `save_processed_data` (plus `__init__`), and
in particular no method named `validate`. -/
def dataValidationMethods : List String :=
  ["run_data_quality_checks", "save_processed_data"]

/-- The outcome of a pipeline call: a returned report, or a raised
`CustomException` wrapping the original error message. -/
inductive PipelineOutcome where
  | report (rows : List ReportRow)
  | customException (msg : String)
deriving DecidableEq, Repr

/-- `ValidationPipeline.validate`: the body evaluates
`self.validator.validate(features)`. Attribute lookup of "validate" on the
`DataValidation` instance consults the class's method table; the name is
absent, so Python raises `AttributeError`, which the `except` clause wraps
into a `CustomException` and re-raises. The successful-dispatch branch is
provably unreachable. -/
def validationPipeline_validate (features : List ValRow) : PipelineOutcome :=
  if h : "validate" ∈ dataValidationMethods then
    absurd h (by decide)
  else
    PipelineOutcome.customException
      "AttributeError: DataValidation object has no attribute validate"

/-- C10: for every input dataset, `ValidationPipeline.validate` raises a
`CustomException` (wrapping the `AttributeError` for the missing
`DataValidation.validate` method) and never returns a report. -/
theorem c10_validate_always_raises (features : List ValRow) :
    validationPipeline_validate features =
      PipelineOutcome.customException
        "AttributeError: DataValidation object has no attribute validate" ∧
    ∀ rows, validationPipeline_validate features ≠ PipelineOutcome.report rows := by
  have h : validationPipeline_validate features =
      PipelineOutcome.customException
        "AttributeError: DataValidation object has no attribute validate" := by
    rw [validationPipeline_validate, dif_neg (by decide)]
  exact ⟨h, fun rows hr => by rw [h] at hr; exact PipelineOutcome.noConfusion hr⟩

/-- Witness for `c10_validate_always_raises` at the empty dataset. -/
theorem c10_validate_always_raises_witness :
    validationPipeline_validate [] =
      PipelineOutcome.customException
        "AttributeError: DataValidation object has no attribute validate" ∧
    validationPipeline_validate [] ≠ PipelineOutcome.report [] :=
  ⟨(c10_validate_always_raises []).1, (c10_validate_always_raises []).2 []⟩

/-! ## Scaler — `DataTransformation.scale_numeric`

`df[numeric_cols] = df[numeric_cols].fillna(df[numeric_cols].median())`
overwrites the four target columns in the frame with their median-imputed
values *before* `StandardScaler.fit_transform` estimates the per-column
mean and standard deviation; the scaler then appends one `<col>_scaled`
column per target column. `Series.median()` skips NaN, averages the two
middle order statistics for an even count, and is NaN for an all-NaN
column (in which case `fillna` leaves the NaNs in place). -/

/-- A row at the scaling stage: the pass-through columns plus the four
target numeric columns (nullable, as `rolling_7` etc. may be NaN when
`scale_numeric` is called on its own). -/
structure SRow where
  sensor_id : String
  timestamp : ℕ
  reading_type : String
  value : ℚ
  battery_level : Option ℚ
  calibrated_value : Option ℚ
  daily_avg : Option ℚ
  rolling_7 : Option ℚ
deriving DecidableEq, Repr

/-- `Series.median()` over the non-null entries: middle order statistic for
an odd count, mean of the two middle ones for an even count, `none` (NaN)
for an empty list. -/
def median? (xs : List ℚ) : Option ℚ :=
  let s := List.insertionSort (fun a b : ℚ => a ≤ b) xs
  let n := s.length
  if n = 0 then none
  else if n % 2 = 1 then s[n / 2]?
  else
    match s[n / 2 - 1]?, s[n / 2]? with
    | some a, some b => some ((a + b) / 2)
    | _, _ => none

/-- The median of one target column of the frame (NaN entries skipped). -/
def colMedian (df : List SRow) (get : SRow → Option ℚ) : Option ℚ :=
  median? ((df.map get).filterMap id)

/-- The in-frame effect of `DataTransformation.scale_numeric`: the four
target columns are overwritten with their median-imputed values (`fillna`
with the per-column median; an all-NaN column stays NaN), every other
column is passed through. The appended `<col>_scaled` columns are modelled
by `scaled_column` below. -/
def scale_numeric (df : List SRow) : List SRow :=
  let mBL := colMedian df (fun r => r.battery_level)
  let mCV := colMedian df (fun r => r.calibrated_value)
  let mDA := colMedian df (fun r => r.daily_avg)
  let mR7 := colMedian df (fun r => r.rolling_7)
  df.map (fun r =>
    { r with battery_level := r.battery_level.orElse (fun _ => mBL),
             calibrated_value := r.calibrated_value.orElse (fun _ => mCV),
             daily_avg := r.daily_avg.orElse (fun _ => mDA),
             rolling_7 := r.rolling_7.orElse (fun _ => mR7) })

/-- Concrete input refuting C7 as stated: the middle row's
`battery_level` is NULL and the column's other values are 10 and 30. -/
def c7ex : List SRow :=
  [⟨"S1", 0, "temperature", 20, some 10, some 1, some 1, some 1⟩,
   ⟨"S1", 60, "temperature", 21, none, some 2, some 2, some 2⟩,
   ⟨"S1", 120, "temperature", 22, some 30, some 3, some 3, some 3⟩]

/-- Counterexample to C7: the Scaler stage does not leave all pre-existing
columns unchanged — on `c7ex` it overwrites the second row's NULL
`battery_level` with the column median 20 before fitting, so the
pre-existing `battery_level` column differs between input and output. -/
theorem c7_counterexample :
    ((scale_numeric c7ex)[1]?).map (fun r => r.battery_level) ≠
      (c7ex[1]?).map (fun r => r.battery_level) := by
  have h : ((scale_numeric c7ex)[1]?).map (fun r => r.battery_level) = some (some 20) := by
    norm_num [scale_numeric, colMedian, median?, c7ex, List.insertionSort,
      List.orderedInsert]
  rw [h]
  simp [c7ex]

/-! ### `DataValidation.save_processed_data` — in-place `date` assignment

`save_processed_data` does not copy its argument: it executes
`df["date"] = pd.to_datetime(df["timestamp"], errors="coerce").dt.date.astype(str)`
directly on the caller's dataframe, creating the `date` column or
overwriting an existing one (e.g. the Feature Deriver's) with the
stringified calendar date of each row's timestamp, before delegating the
partitioned parquet write (out of scope). In the typed embedding every
`timestamp` is a valid instant, so `errors="coerce"` produces no NaT. -/

/-- A snapshot row as seen by `save_processed_data`: the audited columns
plus the `date` column the assignment targets. A frame without a `date`
column is modelled by `none` in every row. -/
structure PRow where
  sensor_id : String
  timestamp : ℕ
  reading_type : String
  value : Option ℚ
  date : Option String
deriving DecidableEq, Repr

/-- The caller-visible dataframe after `DataValidation.save_processed_data`
returns: the `date` column holds the stringified date of `timestamp`
(day index in the minutes-since-epoch model), every other column and the
row order are untouched. -/
def save_processed_data (df : List PRow) : List PRow :=
  df.map (fun r => { r with date := some (toString (dateOf r.timestamp)) })

/-- C7 (amended): each stage changes only the columns it adds, with these
exceptions: the cleaning stage removes rows; the Scaler's median
imputation overwrites its four target numeric columns (battery_level,
calibrated_value, daily_avg, rolling_7) with median-filled values while
preserving the row count and leaving its non-target columns (sensor_id,
timestamp, reading_type, value) unchanged row by row; and
`DataValidation.save_processed_data` assigns the `date` column in place
on the caller's dataframe — creating it or overwriting an existing one
with the stringified date of each row's timestamp — while leaving every
other column and the row count unchanged. -/
theorem c7_stage_frame (df : List SRow) (pf : List PRow) :
    ((scale_numeric df).length = df.length ∧
      ∀ i : ℕ,
        ((scale_numeric df)[i]?).map (fun r =>
          (r.sensor_id, r.timestamp, r.reading_type, r.value)) =
        (df[i]?).map (fun r =>
          (r.sensor_id, r.timestamp, r.reading_type, r.value))) ∧
    ((save_processed_data pf).length = pf.length ∧
      (∀ i : ℕ,
        ((save_processed_data pf)[i]?).map (fun r =>
          (r.sensor_id, r.timestamp, r.reading_type, r.value)) =
        (pf[i]?).map (fun r =>
          (r.sensor_id, r.timestamp, r.reading_type, r.value))) ∧
      ∀ i : ℕ,
        ((save_processed_data pf)[i]?).map (fun r => r.date) =
        (pf[i]?).map (fun r => some (toString (dateOf r.timestamp)))) := by
  refine ⟨⟨?_, ?_⟩, ?_, ?_, ?_⟩
  · simp [scale_numeric]
  · intro i
    simp only [scale_numeric, List.getElem?_map]
    cases h : df[i]? <;> rfl
  · simp [save_processed_data]
  · intro i
    simp only [save_processed_data, List.getElem?_map]
    cases h : pf[i]? <;> rfl
  · intro i
    simp only [save_processed_data, List.getElem?_map]
    cases h : pf[i]? <;> rfl

/-! ### The fitted scaler (`StandardScaler.fit_transform`)

Column-level view: a target column is imputed with its median, then
`StandardScaler` standardises it with the column's mean and (population,
`ddof=0`) standard deviation learned from the imputed column. The scaled
values live in `ℝ` because of the square root. -/

/-- One target column after `fillna` with its own median (NaN entries of an
all-NaN column survive, as pandas' `fillna(NaN)` is a no-op). -/
def imputeMedian (col : List (Option ℚ)) : List (Option ℚ) :=
  col.map (fun v => v.orElse (fun _ => median? (col.filterMap id)))

/-- The imputed column as a plain value list (drops nothing when the
imputation left no NaN behind). -/
def imputedValues (col : List (Option ℚ)) : List ℚ :=
  (imputeMedian col).filterMap id

/-- Population variance (`StandardScaler` uses `ddof=0`). -/
def pop_var (xs : List ℚ) : ℚ :=
  (xs.map (fun x => (x - listMean xs) ^ 2)).sum / xs.length

/-- The `<col>_scaled` column: `(x - mean) / std` with the fitted mean and
population standard deviation of the (already imputed) training column. -/
noncomputable def scaled_column (xs : List ℚ) : List ℝ :=
  xs.map (fun x : ℚ => ((x : ℝ) - ((listMean xs : ℚ) : ℝ)) /
    Real.sqrt ((pop_var xs : ℚ) : ℝ))

/-- Mean of a real-valued column. -/
noncomputable def listMeanR (xs : List ℝ) : ℝ := xs.sum / xs.length

/-- Population variance of a real-valued column. -/
noncomputable def pop_varR (xs : List ℝ) : ℝ :=
  (xs.map (fun x => (x - listMeanR xs) ^ 2)).sum / xs.length

theorem median?_isSome (xs : List ℚ) (h : xs ≠ []) : (median? xs).isSome := by
  rw [median?]
  have hlen : (List.insertionSort (fun a b : ℚ => a ≤ b) xs).length = xs.length :=
    List.length_insertionSort _ xs
  have hn : 0 < xs.length := List.length_pos.2 h
  simp only [hlen]
  rw [if_neg (by omega)]
  have h1 : xs.length / 2 - 1 < (List.insertionSort (fun a b : ℚ => a ≤ b) xs).length := by
    omega
  have h2 : xs.length / 2 < (List.insertionSort (fun a b : ℚ => a ≤ b) xs).length := by
    omega
  by_cases hodd : xs.length % 2 = 1
  · rw [if_pos hodd, List.getElem?_eq_getElem h2]
    rfl
  · rw [if_neg hodd, List.getElem?_eq_getElem h1, List.getElem?_eq_getElem h2]
    rfl

theorem imputeMedian_isSome {col : List (Option ℚ)} {x : ℚ} (hx : some x ∈ col) :
    ∀ v ∈ imputeMedian col, v.isSome := by
  intro v hv
  rcases List.mem_map.1 hv with ⟨w, hw, rfl⟩
  match w with
  | some a => rfl
  | none =>
    show (median? (col.filterMap id)).isSome
    apply median?_isSome
    intro hemp
    have : x ∈ col.filterMap id := List.mem_filterMap.2 ⟨some x, hx, rfl⟩
    rw [hemp] at this
    cases this

theorem length_filterMap_id {α : Type} (l : List (Option α))
    (h : ∀ v ∈ l, v.isSome) : (l.filterMap id).length = l.length := by
  induction l with
  | nil => rfl
  | cons a l ih =>
    match a, h a (List.mem_cons_self _ _) with
    | some x, _ =>
      rw [List.filterMap_cons]
      simp only [id]
      rw [List.length_cons, List.length_cons,
        ih (fun v hv => h v (List.mem_cons_of_mem _ hv))]

theorem mem_imputedValues {col : List (Option ℚ)} {x : ℚ} (hx : some x ∈ col) :
    x ∈ imputedValues col := by
  apply List.mem_filterMap.2
  refine ⟨some x, ?_, rfl⟩
  rw [imputeMedian]
  exact List.mem_map.2 ⟨some x, hx, rfl⟩

theorem sum_map_div {α : Type} (l : List α) (f : α → ℝ) (c : ℝ) :
    (l.map (fun x => f x / c)).sum = (l.map f).sum / c := by
  induction l with
  | nil => simp
  | cons a l ih => simp [ih, add_div]

theorem sum_map_sub_const {α : Type} (l : List α) (f : α → ℝ) (c : ℝ) :
    (l.map (fun x => f x - c)).sum = (l.map f).sum - l.length * c := by
  induction l with
  | nil => simp
  | cons a l ih =>
    simp only [List.map_cons, List.sum_cons, ih, List.length_cons]
    push_cast
    ring

theorem sum_map_ratCast {α : Type} (l : List α) (f : α → ℚ) :
    (l.map (fun x => ((f x : ℚ) : ℝ))).sum = (((l.map f).sum : ℚ) : ℝ) := by
  induction l with
  | nil => simp
  | cons a l ih => simp [ih]

theorem sum_ratCast (l : List ℚ) :
    (l.map (fun z : ℚ => ((z : ℝ)))).sum = ((l.sum : ℚ) : ℝ) := by
  induction l with
  | nil => simp
  | cons a l ih =>
    rw [List.map_cons, List.sum_cons, List.sum_cons, ih]
    push_cast
    ring

theorem sum_map_pos {α : Type} (f : α → ℚ) (a : α) (hp : 0 < f a) :
    ∀ l : List α, (∀ x ∈ l, 0 ≤ f x) → a ∈ l → 0 < (l.map f).sum := by
  intro l
  induction l with
  | nil => intro _ h; cases h
  | cons b l ih =>
    intro hnn ha
    rw [List.map_cons, List.sum_cons]
    rcases List.mem_cons.1 ha with rfl | ha'
    · have hrest : 0 ≤ (l.map f).sum := by
        apply List.sum_nonneg
        intro x hx
        rcases List.mem_map.1 hx with ⟨c, hc, rfl⟩
        exact hnn c (List.mem_cons_of_mem _ hc)
      linarith
    · have h1 : 0 ≤ f b := hnn b (List.mem_cons_self _ _)
      have h2 : 0 < (l.map f).sum :=
        ih (fun c hc => hnn c (List.mem_cons_of_mem _ hc)) ha'
      linarith

theorem pop_var_pos {xs : List ℚ} {x y : ℚ} (hx : x ∈ xs) (hy : y ∈ xs)
    (hxy : x ≠ y) : 0 < pop_var xs := by
  have hn : 0 < xs.length := List.length_pos.2 (by rintro rfl; cases hx)
  rw [pop_var]
  apply div_pos ?_ (by exact_mod_cast hn)
  have hne : x - listMean xs ≠ 0 ∨ y - listMean xs ≠ 0 := by
    by_contra hc
    push_neg at hc
    apply hxy
    have h1 := sub_eq_zero.1 hc.1
    have h2 := sub_eq_zero.1 hc.2
    rw [h1, h2]
  have hnn : ∀ z ∈ xs, 0 ≤ (z - listMean xs) ^ 2 := fun z _ => sq_nonneg _
  rcases hne with h | h
  · exact sum_map_pos _ x (by positivity) xs hnn hx
  · exact sum_map_pos _ y (by positivity) xs hnn hy

/-- C8: the Scaler imputes each target column's missing values with the
column median before fitting, and for any column with at least two
distinct non-null values, fitting on the column and applying to it yields
a scaled column of the same length with mean exactly 0 and (population)
standard deviation exactly 1 with respect to the training data. -/
theorem c8_scaler_roundtrip (col : List (Option ℚ))
    (h : ∃ a ∈ col, ∃ b ∈ col, a ≠ b ∧ a.isSome ∧ b.isSome) :
    (imputedValues col).length = col.length ∧
    listMeanR (scaled_column (imputedValues col)) = 0 ∧
    Real.sqrt (pop_varR (scaled_column (imputedValues col))) = 1 := by
  obtain ⟨a, ha, b, hb, hab, hsa, hsb⟩ := h
  obtain ⟨x, rfl⟩ := Option.isSome_iff_exists.1 hsa
  obtain ⟨y, rfl⟩ := Option.isSome_iff_exists.1 hsb
  have hxy : x ≠ y := fun hc => hab (by rw [hc])
  have hlen : (imputedValues col).length = col.length := by
    rw [imputedValues, length_filterMap_id _ (imputeMedian_isSome ha), imputeMedian,
      List.length_map]
  set xs := imputedValues col with hxs
  have hxm : x ∈ xs := mem_imputedValues ha
  have hym : y ∈ xs := mem_imputedValues hb
  have hn : 0 < xs.length := List.length_pos.2 (by rintro hnil; rw [hnil] at hxm; cases hxm)
  have hnR : ((xs.length : ℚ) : ℝ) ≠ 0 := by
    exact_mod_cast Nat.pos_iff_ne_zero.1 hn
  have hv : 0 < pop_var xs := pop_var_pos hxm hym hxy
  have hvR : (0 : ℝ) < ((pop_var xs : ℚ) : ℝ) := by exact_mod_cast hv
  have hs : Real.sqrt ((pop_var xs : ℚ) : ℝ) ≠ 0 :=
    ne_of_gt (Real.sqrt_pos.2 hvR)
  have hs2 : Real.sqrt ((pop_var xs : ℚ) : ℝ) ^ 2 = ((pop_var xs : ℚ) : ℝ) :=
    Real.sq_sqrt hvR.le
  -- the sum of the centred casts is zero
  have hsum0 : (xs.map (fun z : ℚ => ((z : ℝ) - ((listMean xs : ℚ) : ℝ)))).sum = 0 := by
    rw [sum_map_sub_const xs (fun z : ℚ => ((z : ℝ))) _, sum_ratCast]
    rw [listMean]
    push_cast
    field_simp
  have hssum : (scaled_column xs).sum = 0 := by
    rw [scaled_column, sum_map_div, hsum0, zero_div]
  have hslen : (scaled_column xs).length = xs.length := by
    rw [scaled_column, List.length_map]
  have hmean0 : listMeanR (scaled_column xs) = 0 := by
    rw [listMeanR, hssum, zero_div]
  refine ⟨hlen, hmean0, ?_⟩
  -- the population variance of the scaled column is exactly 1
  have hvar1 : pop_varR (scaled_column xs) = 1 := by
    rw [pop_varR, hmean0]
    simp only [sub_zero]
    rw [scaled_column, List.map_map]
    have hfun : ((fun z : ℝ => z ^ 2) ∘ fun z : ℚ =>
        ((z : ℝ) - ((listMean xs : ℚ) : ℝ)) / Real.sqrt ((pop_var xs : ℚ) : ℝ)) =
        fun z : ℚ => (((z - listMean xs) ^ 2 : ℚ) : ℝ) / ((pop_var xs : ℚ) : ℝ) := by
      funext z
      simp only [Function.comp]
      rw [div_pow, hs2]
      push_cast
      ring
    rw [hfun, sum_map_div, sum_map_ratCast xs (fun z => (z - listMean xs) ^ 2),
      List.length_map]
    have hnR1 : ((xs.length : ℕ) : ℝ) ≠ 0 := by
      exact_mod_cast Nat.pos_iff_ne_zero.1 hn
    have hvne : ((pop_var xs : ℚ) : ℝ) ≠ 0 := ne_of_gt hvR
    have hsq : (((xs.map (fun z => (z - listMean xs) ^ 2)).sum : ℚ) : ℝ) =
        ((pop_var xs : ℚ) : ℝ) * ((xs.length : ℕ) : ℝ) := by
      rw [pop_var]
      push_cast
      field_simp
    rw [hsq]
    field_simp
  rw [hvar1, Real.sqrt_one]

/-- Witness for `c8_scaler_roundtrip` at the concrete column
`[some 0, none, some 2]`, which has two distinct non-null values. -/
theorem c8_scaler_roundtrip_witness :
    (∃ a ∈ ([some 0, none, some 2] : List (Option ℚ)), ∃ b ∈
        ([some 0, none, some 2] : List (Option ℚ)),
      a ≠ b ∧ a.isSome ∧ b.isSome) ∧
    ((imputedValues [some 0, none, some 2]).length = 3 ∧
      listMeanR (scaled_column (imputedValues [some 0, none, some 2])) = 0 ∧
      Real.sqrt (pop_varR (scaled_column (imputedValues [some 0, none, some 2]))) = 1) :=
  ⟨⟨some 0, by decide, some 2, by decide, by decide, rfl, rfl⟩,
    c8_scaler_roundtrip [some 0, none, some 2]
      ⟨some 0, by decide, some 2, by decide, by decide, rfl, rfl⟩⟩

end AgMon
